import Mathlib

/-!
Verification of the Response Analysis & Scoring Engine of `app.py`.

The Python source is shallowly embedded: Python floats are modelled as
rationals (ℚ), Python `int()` as truncation toward zero, Python `round`
as round-half-to-even, machine strings as Lean `String`.  The external
embedding service is modelled as an oracle parameter, and the module
random source (`random.choice` / `random.shuffle`) as explicit
parameters: a branch pick and a shuffle function.
-/

/-- Python `int(x)` applied to a float: truncation toward zero. -/
def pyTrunc (q : ℚ) : ℤ := if q < 0 then ⌈q⌉ else ⌊q⌋

/-- Python `str.lower()` (ASCII-faithful). -/
def pyLower (s : String) : String := ⟨s.data.map Char.toLower⟩

/-- Worker for `pyWordCount`: counts the maximal whitespace-free runs,
tracking whether the scan is inside a word. -/
def wordCountAux : Bool → List Char → ℕ
  | _, [] => 0
  | inWord, c :: rest =>
    if c.isWhitespace then wordCountAux false rest
    else (if inWord then 0 else 1) + wordCountAux true rest

/-- Word count via whitespace tokenization (`len(answer.split())`):
Python `split()` with no argument splits on whitespace runs and drops
empty fragments, so the length of the split is the number of maximal
whitespace-free runs. -/
def pyWordCount (s : String) : ℕ := wordCountAux false s.data

/-- Python `str.strip()`: drop leading and trailing whitespace. -/
def pyStrip (s : String) : String :=
  ⟨((s.data.dropWhile Char.isWhitespace).reverse.dropWhile Char.isWhitespace).reverse⟩

/-- Fuel-driven worker for `strCount`; the fuel is the length of the
text, which suffices because each step consumes at least one character. -/
def strCountAux : ℕ → List Char → List Char → ℕ
  | 0, _, _ => 0
  | _, [], _ => 0
  | fuel + 1, c :: rest, pat =>
    if pat.isPrefixOf (c :: rest) then
      1 + strCountAux fuel ((c :: rest).drop pat.length) pat
    else
      strCountAux fuel rest pat

/-- Python `str.count(pat)`: number of non-overlapping occurrences of
`pat` in `s`, scanning left to right (`len(s)+1` for the empty pattern,
as in Python). -/
def strCount (s pat : String) : ℕ :=
  if pat.data = [] then s.data.length + 1
  else strCountAux s.data.length s.data pat.data

/-- Function `calculate_semantic_relevance`, with the cosine similarity
returned by the external embedding service abstracted as the input
`similarity`: `max(0, min(100, int(similarity_score * 100)))`. -/
def calculate_semantic_relevance (similarity : ℚ) : ℤ :=
  max 0 (min 100 (pyTrunc (similarity * 100)))

/-- Modelled from the spec's words for §4.1 (comparison target for C1):
`score = round(clamp(similarity, 0, 1) * 100)`, with round-to-nearest. -/
def specRelevanceRounded (similarity : ℚ) : ℤ :=
  round (max 0 (min 1 similarity) * 100)

/-- The clamp-then-scale-then-floor form that the code actually
implements (comparison target for the amended C1). -/
def clampedFlooredRelevance (similarity : ℚ) : ℤ :=
  ⌊max 0 (min 1 similarity) * 100⌋

/-- C1 (counterexample): at similarity 567/1000 the code yields 56
(truncation of 56.7) while the claimed round-to-nearest form yields 57,
so the relevance score is not `round(clamp(similarity,0,1)*100)`. -/
theorem c1_rounding_counterexample :
    calculate_semantic_relevance (567 / 1000) = 56 ∧
    specRelevanceRounded (567 / 1000) = 57 ∧
    calculate_semantic_relevance (567 / 1000) ≠ specRelevanceRounded (567 / 1000) := by
  have h1 : calculate_semantic_relevance (567 / 1000) = 56 := by
    unfold calculate_semantic_relevance pyTrunc
    rw [show ((567 : ℚ) / 1000 * 100) = 567 / 10 by norm_num]
    rw [if_neg (by norm_num : ¬ ((567 : ℚ) / 10 < 0))]
    rw [show ⌊(567 : ℚ) / 10⌋ = 56 by rw [Int.floor_eq_iff]; norm_num]
    omega
  have h2 : specRelevanceRounded (567 / 1000) = 57 := by
    unfold specRelevanceRounded
    rw [min_eq_right (by norm_num : (567 : ℚ) / 1000 ≤ 1)]
    rw [max_eq_right (by norm_num : (0 : ℚ) ≤ 567 / 1000)]
    rw [show ((567 : ℚ) / 1000 * 100) = 567 / 10 by norm_num]
    rw [round_eq]
    rw [show ((567 : ℚ) / 10 + 1 / 2) = 286 / 5 by norm_num]
    rw [Int.floor_eq_iff]
    norm_num
  refine ⟨h1, h2, by rw [h1, h2]; omega⟩

/-- C1 (amended): for every similarity value, the semantic relevance
score equals `⌊clamp(similarity, 0, 1) * 100⌋`: the similarity is scaled
and truncated (floored), not rounded to nearest, and the clamping the
code performs after scaling coincides with clamping before. -/
theorem c1_relevance_truncates_clamped (similarity : ℚ) :
    calculate_semantic_relevance similarity = clampedFlooredRelevance similarity := by
  unfold calculate_semantic_relevance clampedFlooredRelevance pyTrunc
  rcases le_or_lt similarity 0 with hle | hpos
  · have h100 : similarity * 100 ≤ 0 := by nlinarith
    have hmin : min 1 similarity = similarity := min_eq_right (by linarith)
    have hmax : max 0 similarity = 0 := max_eq_left hle
    rw [hmin, hmax, zero_mul, Int.floor_zero]
    split_ifs with hneg
    · have hc : ⌈similarity * 100⌉ ≤ 0 :=
        Int.ceil_le.mpr (by exact_mod_cast h100)
      have : min 100 ⌈similarity * 100⌉ = ⌈similarity * 100⌉ :=
        min_eq_right (by omega)
      rw [this]
      omega
    · have hz : similarity * 100 = 0 := le_antisymm h100 (not_lt.mp hneg)
      rw [hz, Int.floor_zero]
      omega
  · have hnn : ¬ similarity * 100 < 0 := by
      push_neg
      positivity
    rw [if_neg hnn]
    rcases le_or_lt 1 similarity with hone | hlt
    · have hmin : min 1 similarity = 1 := min_eq_left hone
      rw [hmin, max_eq_right (by norm_num : (0:ℚ) ≤ 1), one_mul]
      have hfl : (100 : ℤ) ≤ ⌊similarity * 100⌋ :=
        Int.le_floor.mpr (by push_cast; nlinarith)
      have : min 100 ⌊similarity * 100⌋ = 100 := min_eq_left hfl
      rw [this]
      norm_num
    · have hmin : min 1 similarity = similarity := min_eq_right (le_of_lt hlt)
      have hmax : max 0 similarity = similarity := max_eq_right (le_of_lt hpos)
      rw [hmin, hmax]
      have hub : ⌊similarity * 100⌋ ≤ 100 := by
        have : similarity * 100 ≤ 100 := by nlinarith
        calc ⌊similarity * 100⌋ ≤ ⌊(100 : ℚ)⌋ := Int.floor_le_floor this
        _ = 100 := by norm_num
      have hlb : 0 ≤ ⌊similarity * 100⌋ :=
        Int.floor_nonneg.mpr (by positivity)
      rw [min_eq_right hub, max_eq_right hlb]

/-- Word character for the regex `\b` boundary (`[A-Za-z0-9_]`). -/
def isWordChar (c : Char) : Bool := c.isAlphanum || c = '_'

/-- Whether a regex word boundary holds before a match, given the
character immediately preceding the match position (none at the start
of the text); all configured keywords start with a word character. -/
def boundaryOkBefore (prev : Option Char) : Bool :=
  match prev with
  | none => true
  | some c => !isWordChar c

/-- Whether a regex word boundary holds after a match, given the rest of
the text; all configured keywords end with a word character. -/
def boundaryOkAfter (rest : List Char) : Bool :=
  match rest with
  | [] => true
  | c :: _ => !isWordChar c

/-- A word-boundary-delimited occurrence of `pat` at the head of `s`,
where `prev` is the character just before `s` in the full text. -/
def boundaryMatchHere (pat s : List Char) (prev : Option Char) : Bool :=
  pat.isPrefixOf s && boundaryOkBefore prev && boundaryOkAfter (s.drop pat.length)

/-- Scan for a word-boundary-delimited occurrence of `pat` anywhere. -/
def boundaryMatchFrom (pat : List Char) : Option Char → List Char → Bool
  | prev, [] => boundaryMatchHere pat [] prev
  | prev, c :: rest =>
    boundaryMatchHere pat (c :: rest) prev || boundaryMatchFrom pat (some c) rest

/-- Function `count_filler_words`: case-insensitive substring occurrence
count of each filler phrase, summed
(`sum(lowered.count(word.lower()) for word in fillers)`). -/
def count_filler_words (text : String) (fillers : List String) : ℕ :=
  (fillers.map (fun w => strCount (pyLower text) (pyLower w))).sum

/-- Function `count_pause_indicators`: literal substring count of each
marker in the raw text (`sum(text.count(marker) for marker in markers)`). -/
def count_pause_indicators (text : String) (markers : List String) : ℕ :=
  (markers.map (fun m => strCount text m)).sum

/-- Function `detect_example_usage`: the regex
`\b(kw1|...|kwN)\b` with `re.IGNORECASE` searched in the text, i.e. some
keyword occurs as a whole word (case-insensitively). -/
def detect_example_usage (text : String) (keywords : List String) : Bool :=
  keywords.any (fun kw => boundaryMatchFrom (pyLower kw).data none (pyLower text).data)

/-- Python substring membership `pat in s`. -/
def strContains (s pat : String) : Bool := decide (0 < strCount s pat)

/-- Function `detect_star_structure`: at least 3 of the configured STAR
keywords occur (lowercased substring match). -/
def detect_star_structure (text : String) (keywords : List String) : Bool :=
  decide (3 ≤ keywords.countP (fun kw => strContains (pyLower text) (pyLower kw)))

/-- Engine configuration (the fields of `DEFAULT_CONFIG` that the
analysis engine reads); weights are floats, modelled as rationals. -/
structure Config where
  filler_words : List String
  pause_indicators : List String
  example_keywords : List String
  star_method_keywords : List String
  relevance_weight : ℚ
  confidence_weight : ℚ
  clarity_weight : ℚ
deriving DecidableEq

/-- Constant `DEFAULT_CONFIG` of `app.py` (the engine-relevant fields). -/
def DEFAULT_CONFIG : Config where
  filler_words := ["um", "uh", "like", "you know", "so", "well", "basically",
    "literally", "sort of", "kind of", "right", "okay", "actually",
    "honestly", "essentially", "pretty much", "I mean"]
  pause_indicators := ["...", "--", "——", "…"]
  example_keywords := ["example", "case", "project", "worked on", "built", "created",
    "implemented", "developed", "designed", "led", "managed"]
  star_method_keywords := ["situation", "task", "action", "result", "challenge", "goal",
    "achieved", "impact", "outcome", "delivered", "responsibility", "objective"]
  relevance_weight := 0.50
  confidence_weight := 0.25
  clarity_weight := 0.25

/-- Function `evaluate_clarity_and_confidence`: returns the pair
`(clarity_score, confidence_score)`. -/
def evaluate_clarity_and_confidence (answer : String) (config : Config) : ℤ × ℤ :=
  let word_count := pyWordCount answer
  let filler_count := count_filler_words answer config.filler_words
  let pause_count := count_pause_indicators answer config.pause_indicators
  let clarity_penalty : ℕ :=
    filler_count * 5 + pause_count * 7 + (if word_count < 70 then 20 else 0)
  let clarity_score : ℤ := max 15 (min 98 (90 - (clarity_penalty : ℤ)))
  let length_bonus : ℚ :=
    if word_count > 140 then 35 else max 0 (((word_count : ℚ) - 60) * 0.6)
  let example_bonus : ℚ :=
    if detect_example_usage answer config.example_keywords then 20 else 0
  let confidence_score : ℤ :=
    max 20 (min 98 (pyTrunc (55 + length_bonus + example_bonus - (filler_count : ℚ) * 3)))
  (clarity_score, confidence_score)

/-- Modelled from the spec's words for §4.3 clarity (comparison target
for C6): base 90, penalty `5*fillerCount + 7*pauseCount`, flat extra 20
when the word count is below 70, clamped to `[15, 98]`. -/
def clarityFormula (fillerCount pauseCount wordCount : ℕ) : ℤ :=
  max 15 (min 98 (90 - (5 * (fillerCount : ℤ) + 7 * (pauseCount : ℤ)) -
    (if wordCount < 70 then 20 else 0)))

/-- Modelled from the spec's words for §4.3 confidence (comparison
target for C6): base 55, length bonus 35 when the word count exceeds 140
and otherwise `max(0, (wordCount - 60) * 0.6)`, example bonus 20,
filler penalty `3 * fillerCount`, truncated to an integer and clamped
to `[20, 98]`. -/
def confidenceFormula (fillerCount wordCount : ℕ) (exampleUsed : Bool) : ℤ :=
  max 20 (min 98 (pyTrunc (55 +
    (if wordCount > 140 then (35 : ℚ) else max 0 (((wordCount : ℚ) - 60) * 0.6)) +
    (if exampleUsed then (20 : ℚ) else 0) - 3 * (fillerCount : ℚ))))

/-- C6: for every answer text and configuration, the clarity and
confidence scores computed by the code equal the spec's closed formulas
evaluated at the extracted filler count, pause count, whitespace word
count and example-usage flag. -/
theorem c6_clarity_confidence_formulas (answer : String) (config : Config) :
    evaluate_clarity_and_confidence answer config =
      (clarityFormula (count_filler_words answer config.filler_words)
          (count_pause_indicators answer config.pause_indicators) (pyWordCount answer),
       confidenceFormula (count_filler_words answer config.filler_words) (pyWordCount answer)
          (detect_example_usage answer config.example_keywords)) := by
  simp only [evaluate_clarity_and_confidence, clarityFormula, confidenceFormula, Prod.mk.injEq]
  constructor
  · congr 1
    split_ifs <;> push_cast <;> ring_nf
  · congr 3
    ring_nf

/-- Truncation toward zero is the identity on integers. -/
theorem pyTrunc_intCast (n : ℤ) : pyTrunc (n : ℚ) = n := by
  unfold pyTrunc
  split_ifs with h
  · exact Int.ceil_intCast n
  · exact Int.floor_intCast n

/-- Truncation toward zero stays within one of its argument (upper). -/
theorem pyTrunc_lt_add_one (q : ℚ) : (pyTrunc q : ℚ) < q + 1 := by
  unfold pyTrunc
  split_ifs with h
  · exact_mod_cast Int.ceil_lt_add_one q
  · have := Int.floor_le q
    linarith

/-- Truncation toward zero stays within one of its argument (lower). -/
theorem sub_one_lt_pyTrunc (q : ℚ) : q - 1 < (pyTrunc q : ℚ) := by
  unfold pyTrunc
  split_ifs with h
  · have := Int.le_ceil q
    linarith
  · exact_mod_cast Int.sub_one_lt_floor q

/-- Truncation toward zero is monotone. -/
theorem pyTrunc_mono {x y : ℚ} (h : x ≤ y) : pyTrunc x ≤ pyTrunc y := by
  unfold pyTrunc
  split_ifs with hx hy hy
  · exact Int.ceil_mono h
  · calc ⌈x⌉ ≤ 0 := Int.ceil_le.mpr (by exact_mod_cast le_of_lt hx)
    _ ≤ ⌊y⌋ := Int.floor_nonneg.mpr (not_lt.mp hy)
  · exact absurd (lt_of_le_of_lt h hy) hx
  · exact Int.floor_mono h

/-- Dropping the argument by three drops the truncation strictly. -/
theorem pyTrunc_sub_three_lt (q : ℚ) : pyTrunc (q - 3) < pyTrunc q := by
  have h1 : (pyTrunc (q - 3) : ℚ) < q - 2 := by
    have := pyTrunc_lt_add_one (q - 3)
    linarith
  have h2 : q - 1 < (pyTrunc q : ℚ) := sub_one_lt_pyTrunc q
  have : (pyTrunc (q - 3) : ℚ) < (pyTrunc q : ℚ) := by linarith
  exact_mod_cast this

/-- C7 (counterexample): at word count 150 with an example detected and
no pauses, raising the filler count from 0 to 1 leaves the confidence at
the ceiling clamp 98 on both sides, so although the confidence 98 is
above the floor of 20 it is not strictly lower. -/
theorem c7_strict_monotonicity_counterexample :
    confidenceFormula 1 150 true = 98 ∧ confidenceFormula 0 150 true = 98 ∧
    ¬ (20 < confidenceFormula 1 150 true →
        confidenceFormula 1 150 true < confidenceFormula 0 150 true) := by
  have e1 : confidenceFormula 1 150 true = 98 := by
    show max 20 (min 98 (pyTrunc (55 + 35 + (20 : ℚ) - 3 * ((1 : ℕ) : ℚ)))) = 98
    rw [show (55 + 35 + (20 : ℚ) - 3 * ((1 : ℕ) : ℚ)) = ((107 : ℤ) : ℚ) by push_cast; norm_num]
    rw [pyTrunc_intCast]
    omega
  have e2 : confidenceFormula 0 150 true = 98 := by
    show max 20 (min 98 (pyTrunc (55 + 35 + (20 : ℚ) - 3 * ((0 : ℕ) : ℚ)))) = 98
    rw [show (55 + 35 + (20 : ℚ) - 3 * ((0 : ℕ) : ℚ)) = ((110 : ℤ) : ℚ) by push_cast; norm_num]
    rw [pyTrunc_intCast]
    omega
  refine ⟨e1, e2, by rw [e1, e2]; omega⟩

/-- C7 (amended): holding word count, pause count and example detection
fixed, a strictly greater filler count yields a strictly lower clarity
score whenever the higher-filler clarity is above the floor clamp 15,
and a non-increasing confidence score that is strictly lower whenever
the higher-filler confidence lies strictly between the clamps 20 and 98. -/
theorem c7_filler_monotonicity_amended (wordCount pauseCount : ℕ) (exampleUsed : Bool)
    (f1 f2 : ℕ) (hf : f1 < f2) :
    (15 < clarityFormula f2 pauseCount wordCount →
      clarityFormula f2 pauseCount wordCount < clarityFormula f1 pauseCount wordCount) ∧
    confidenceFormula f2 wordCount exampleUsed ≤ confidenceFormula f1 wordCount exampleUsed ∧
    (20 < confidenceFormula f2 wordCount exampleUsed →
      confidenceFormula f2 wordCount exampleUsed < 98 →
      confidenceFormula f2 wordCount exampleUsed < confidenceFormula f1 wordCount exampleUsed) := by
  unfold clarityFormula confidenceFormula
  have hcast : (f1 : ℚ) + 1 ≤ (f2 : ℚ) := by exact_mod_cast hf
  set L : ℚ := if wordCount > 140 then (35 : ℚ) else max 0 (((wordCount : ℚ) - 60) * 0.6) with hL
  set E : ℚ := if exampleUsed then (20 : ℚ) else 0 with hE
  have harg : 55 + L + E - 3 * (f2 : ℚ) ≤ (55 + L + E - 3 * (f1 : ℚ)) - 3 := by linarith
  have ht : pyTrunc (55 + L + E - 3 * (f2 : ℚ)) < pyTrunc (55 + L + E - 3 * (f1 : ℚ)) :=
    lt_of_le_of_lt (pyTrunc_mono harg) (pyTrunc_sub_three_lt _)
  set t1 : ℤ := pyTrunc (55 + L + E - 3 * (f1 : ℚ)) with ht1
  set t2 : ℤ := pyTrunc (55 + L + E - 3 * (f2 : ℚ)) with ht2
  refine ⟨?_, ?_, ?_⟩
  · simp only [max_def, min_def]
    split_ifs <;> omega
  · simp only [max_def, min_def]
    split_ifs <;> omega
  · simp only [max_def, min_def]
    split_ifs <;> omega

/-- Witness for the amended C7 at word count 0, pause count 0, no
example, filler counts 0 and 1. -/
theorem c7_filler_monotonicity_amended_witness :
    (0 : ℕ) < 1 ∧
    ((15 < clarityFormula 1 0 0 → clarityFormula 1 0 0 < clarityFormula 0 0 0) ∧
      confidenceFormula 1 0 false ≤ confidenceFormula 0 0 false ∧
      (20 < confidenceFormula 1 0 false → confidenceFormula 1 0 false < 98 →
        confidenceFormula 1 0 false < confidenceFormula 0 0 false)) :=
  ⟨by norm_num, c7_filler_monotonicity_amended 0 0 false 0 1 (by norm_num)⟩

/-- The list of feedback phrases built by `generate_feedback_phrases`
before the final `random.shuffle`.  The `pick` parameter models the
`random.choice` between the two top-tier relevance phrasings; the
`metrics` dict passed by the pipeline carries the `relevance`, `answer`
and `score` entries, taken here as separate arguments. -/
def feedbackPool (pick : Bool) (relevance : ℤ) (answer : String) (score : ℤ)
    (config : Config) : List String :=
  let p1 : String :=
    if relevance ≥ 95 then
      (if pick then "Exceptional relevance - perfectly aligned with the question."
       else "Outstanding understanding of the core topic.")
    else if relevance ≥ 88 then "Strong relevance with excellent focus on key points."
    else if relevance ≥ 80 then "Good relevance and clear connection to the question."
    else if relevance ≥ 65 then "Moderate relevance - mostly on track with room for tighter focus."
    else "Limited relevance - consider addressing the question more directly."
  let starPhrases : List String :=
    if detect_star_structure answer config.star_method_keywords then
      ["Effective use of structured response framework (STAR method)."]
    else []
  let examplePhrases : List String :=
    if detect_example_usage answer config.example_keywords then
      [if pyWordCount answer > 120 then "Strong incorporation of detailed real-world examples."
       else "Appropriate use of examples to support points."]
    else []
  let word_count := pyWordCount answer
  let lengthPhrase : String :=
    if word_count ≥ 180 then "Excellent depth and comprehensive coverage."
    else if word_count ≥ 130 then "Solid depth with good level of detail."
    else if word_count ≥ 90 then "Adequate content - consider expanding with examples."
    else "Response length: " ++ toString word_count ++ " words - aim for more elaboration."
  let fillers := count_filler_words answer config.filler_words
  let fillerPhrase : String :=
    if fillers = 0 then "Excellent fluency with no filler words."
    else if fillers ≤ 2 then "High fluency with minimal fillers (" ++ toString fillers ++ ")."
    else if fillers ≤ 6 then
      "Moderate filler word usage (" ++ toString fillers ++ ") - practice confident pauses."
    else "Significant filler usage (" ++ toString fillers ++ ") - focus on reducing for stronger delivery."
  let scorePhrases : List String :=
    if score ≥ 92 then ["Outstanding overall performance."]
    else if score ≥ 85 then ["Strong performance suitable for advanced rounds."]
    else if score ≥ 75 then ["Solid performance with clear potential."]
    else []
  [p1] ++ starPhrases ++ examplePhrases ++ [lengthPhrase] ++ [fillerPhrase] ++ scorePhrases

/-- Function `generate_feedback_phrases`: build the phrase list, shuffle
it (`shuffle` models the permutation drawn by `random.shuffle`), and
keep at most 6 entries. -/
def generate_feedback_phrases (pick : Bool) (shuffle : List String → List String)
    (relevance : ℤ) (answer : String) (score : ℤ) (config : Config) : List String :=
  (shuffle (feedbackPool pick relevance answer score config)).take 6

/-- The phrase list never exceeds six entries, one per generation rule,
so the final `take 6` never drops a phrase. -/
theorem feedbackPool_length_le (pick : Bool) (relevance : ℤ) (answer : String) (score : ℤ)
    (config : Config) : (feedbackPool pick relevance answer score config).length ≤ 6 := by
  unfold feedbackPool
  simp only [List.length_append, List.length_cons, List.length_nil]
  have h1 : (if detect_star_structure answer config.star_method_keywords = true then
      ["Effective use of structured response framework (STAR method)."]
      else ([] : List String)).length ≤ 1 := by
    split_ifs <;> simp
  have h2 : (if detect_example_usage answer config.example_keywords = true then
      [if pyWordCount answer > 120 then "Strong incorporation of detailed real-world examples."
       else "Appropriate use of examples to support points."]
      else ([] : List String)).length ≤ 1 := by
    split_ifs <;> simp
  have h3 : (if score ≥ 92 then ["Outstanding overall performance."]
      else if score ≥ 85 then ["Strong performance suitable for advanced rounds."]
      else if score ≥ 75 then ["Solid performance with clear potential."]
      else ([] : List String)).length ≤ 1 := by
    split_ifs <;> simp
  omega

/-- C4 (counterexample): at relevance 95 (answer empty, score 0, default
configuration) the `random.choice` between the two top-tier phrasings
makes two calls on identical input yield different multisets of
statements, even under the identity shuffle, so the set of statements is
not fully determined by the metrics and answer text. -/
theorem c4_multiset_determinism_counterexample :
    (∀ l : List String, List.Perm (id l) l) ∧
    Multiset.ofList (generate_feedback_phrases true id 95 "" 0 DEFAULT_CONFIG) ≠
      Multiset.ofList (generate_feedback_phrases false id 95 "" 0 DEFAULT_CONFIG) := by
  constructor
  · intro l
    exact List.Perm.refl l
  · decide

/-- C4 (amended): whenever the relevance is below 95 (so the
`random.choice` tier is not reached), the multiset of generated feedback
statements is fully determined by the metrics, answer text and
configuration: any two calls, with any branch picks and any two
permutations used as shuffles, return the same multiset, only the
presentation order varying. -/
theorem c4_multiset_determinism_amended (relevance : ℤ) (answer : String) (score : ℤ)
    (config : Config) (pick1 pick2 : Bool) (shuf1 shuf2 : List String → List String)
    (h1 : ∀ l : List String, List.Perm (shuf1 l) l)
    (h2 : ∀ l : List String, List.Perm (shuf2 l) l)
    (hrel : relevance < 95) :
    Multiset.ofList (generate_feedback_phrases pick1 shuf1 relevance answer score config) =
      Multiset.ofList (generate_feedback_phrases pick2 shuf2 relevance answer score config) := by
  have hnot : ¬ relevance ≥ 95 := by omega
  have hpool : ∀ pick : Bool, feedbackPool pick relevance answer score config =
      feedbackPool true relevance answer score config := by
    intro pick
    unfold feedbackPool
    simp only [if_neg hnot]
  have e1 : generate_feedback_phrases pick1 shuf1 relevance answer score config =
      shuf1 (feedbackPool pick1 relevance answer score config) := by
    unfold generate_feedback_phrases
    apply List.take_of_length_le
    rw [(h1 _).length_eq]
    exact feedbackPool_length_le pick1 relevance answer score config
  have e2 : generate_feedback_phrases pick2 shuf2 relevance answer score config =
      shuf2 (feedbackPool pick2 relevance answer score config) := by
    unfold generate_feedback_phrases
    apply List.take_of_length_le
    rw [(h2 _).length_eq]
    exact feedbackPool_length_le pick2 relevance answer score config
  rw [e1, e2, hpool pick1, hpool pick2]
  exact Multiset.coe_eq_coe.mpr ((h1 _).trans (h2 _).symm)

/-- Witness for the amended C4 at relevance 50, empty answer, score 0,
default configuration, opposite branch picks and identity shuffles. -/
theorem c4_multiset_determinism_amended_witness :
    (50 : ℤ) < 95 ∧
    Multiset.ofList (generate_feedback_phrases true id 50 "" 0 DEFAULT_CONFIG) =
      Multiset.ofList (generate_feedback_phrases false id 50 "" 0 DEFAULT_CONFIG) :=
  ⟨by norm_num,
    c4_multiset_determinism_amended 50 "" 0 DEFAULT_CONFIG true false id id
      (fun l => List.Perm.refl l) (fun l => List.Perm.refl l) (by norm_num)⟩

/-- The dictionary returned by `perform_comprehensive_analysis`. -/
structure AnalysisResult where
  relevance : ℤ
  confidence : ℤ
  clarity : ℤ
  score : ℤ
  feedback : String
deriving DecidableEq

/-- Function `perform_comprehensive_analysis`.  The external embedding
service is abstracted as the `similarity` oracle (returning the cosine
similarity of the two texts, or failing); `pick` and `shuffle` model the
random source consumed by the feedback generator.  A raised exception is
modelled as `Except.error`. -/
def perform_comprehensive_analysis (similarity : String → String → Except String ℚ)
    (pick : Bool) (shuffle : List String → List String)
    (question answer : String) (config : Config) : Except String AnalysisResult :=
  let cleaned_answer := pyStrip answer
  if cleaned_answer.data.length < 30 then
    Except.ok ⟨5, 15, 20, 13,
      "Response too brief - please provide a detailed answer (at least 45 seconds of speech)."⟩
  else
    match similarity question cleaned_answer with
    | Except.error e => Except.error e
    | Except.ok sim =>
      let relevance_score := calculate_semantic_relevance sim
      let scores := evaluate_clarity_and_confidence cleaned_answer config
      let overall_score := pyTrunc (config.relevance_weight * (relevance_score : ℚ) +
        config.confidence_weight * (scores.2 : ℚ) + config.clarity_weight * (scores.1 : ℚ))
      let feedback_phrases :=
        generate_feedback_phrases pick shuffle relevance_score cleaned_answer overall_score config
      Except.ok ⟨relevance_score, scores.2, scores.1, overall_score,
        " • ".intercalate feedback_phrases⟩

/-- C2: any answer whose trimmed text has fewer than 30 characters
yields exactly the degenerate metrics (relevance 5, confidence 15,
clarity 20, score 13) with the fixed feedback string, returns normally
(`Except.ok`), and runs no scoring computation: the result does not
depend on the embedding oracle or the random source. -/
theorem c2_short_answer_degenerate (similarity : String → String → Except String ℚ)
    (pick : Bool) (shuffle : List String → List String) (question answer : String)
    (config : Config) (hshort : (pyStrip answer).data.length < 30) :
    perform_comprehensive_analysis similarity pick shuffle question answer config =
      Except.ok ⟨5, 15, 20, 13,
        "Response too brief - please provide a detailed answer (at least 45 seconds of speech)."⟩ := by
  unfold perform_comprehensive_analysis
  rw [if_pos hshort]

/-- Witness for C2 at the empty answer, with a failing embedding oracle
(never consulted) and the identity shuffle. -/
theorem c2_short_answer_degenerate_witness :
    (pyStrip "").data.length < 30 ∧
    perform_comprehensive_analysis (fun _ _ => Except.error "embedding service down") true id
      "Q" "" DEFAULT_CONFIG =
      Except.ok ⟨5, 15, 20, 13,
        "Response too brief - please provide a detailed answer (at least 45 seconds of speech)."⟩ :=
  ⟨by decide,
    c2_short_answer_degenerate (fun _ _ => Except.error "embedding service down") true id
      "Q" "" DEFAULT_CONFIG (by decide)⟩

/-- Relevance scores are always clamped into `[0, 100]`. -/
theorem calculate_semantic_relevance_bounds (sim : ℚ) :
    0 ≤ calculate_semantic_relevance sim ∧ calculate_semantic_relevance sim ≤ 100 := by
  unfold calculate_semantic_relevance
  exact ⟨le_max_left 0 _, max_le (by norm_num) (min_le_left _ _)⟩

/-- Clarity lands in `[15, 98]` and confidence in `[20, 98]` on the full
evaluation path. -/
theorem evaluate_clarity_and_confidence_bounds (answer : String) (config : Config) :
    (15 ≤ (evaluate_clarity_and_confidence answer config).1 ∧
     (evaluate_clarity_and_confidence answer config).1 ≤ 98) ∧
    (20 ≤ (evaluate_clarity_and_confidence answer config).2 ∧
     (evaluate_clarity_and_confidence answer config).2 ≤ 98) := by
  unfold evaluate_clarity_and_confidence
  exact ⟨⟨le_max_left _ _, max_le (by norm_num) (min_le_left _ _)⟩,
         ⟨le_max_left _ _, max_le (by norm_num) (min_le_left _ _)⟩⟩

/-- Truncation toward zero of a value in `[0, 100]` stays in `[0, 100]`. -/
theorem pyTrunc_bounds_of (W : ℚ) (h0 : 0 ≤ W) (h100 : W ≤ 100) :
    0 ≤ pyTrunc W ∧ pyTrunc W ≤ 100 := by
  unfold pyTrunc
  rw [if_neg (not_lt.mpr h0)]
  refine ⟨Int.floor_nonneg.mpr h0, ?_⟩
  calc ⌊W⌋ ≤ ⌊(100 : ℚ)⌋ := Int.floor_le_floor h100
  _ = 100 := by norm_num

/-- C3 (counterexample): on the empty answer the pipeline returns
normally with confidence 15, which is below the claimed lower bound 20,
so not every returned confidence value lies in `[20, 98]`. -/
theorem c3_confidence_range_counterexample :
    ¬ (∀ r : AnalysisResult,
        perform_comprehensive_analysis (fun _ _ => Except.ok 1) true id "Q" "" DEFAULT_CONFIG =
          Except.ok r → 20 ≤ r.confidence) := by
  intro h
  have h15 := h ⟨5, 15, 20, 13,
    "Response too brief - please provide a detailed answer (at least 45 seconds of speech)."⟩
    rfl
  exact absurd h15 (by decide)

/-- C3 (amended): for nonnegative weights summing to 1, every normally
returned analysis result has all four metrics in `[0, 100]`; on the
full-analysis path (trimmed answer of at least 30 characters), the
confidence additionally lies in `[20, 98]` and the clarity in
`[15, 98]`.  The short-answer path returns the fixed degenerate metrics,
whose confidence 15 falls below the `[20, 98]` sub-range. -/
theorem c3_metric_bounds_amended (similarity : String → String → Except String ℚ)
    (pick : Bool) (shuffle : List String → List String) (question answer : String)
    (config : Config) (r : AnalysisResult)
    (hw1 : 0 ≤ config.relevance_weight) (hw2 : 0 ≤ config.confidence_weight)
    (hw3 : 0 ≤ config.clarity_weight)
    (hsum : config.relevance_weight + config.confidence_weight + config.clarity_weight = 1)
    (hok : perform_comprehensive_analysis similarity pick shuffle question answer config =
      Except.ok r) :
    (0 ≤ r.relevance ∧ r.relevance ≤ 100) ∧
    (0 ≤ r.confidence ∧ r.confidence ≤ 100) ∧
    (0 ≤ r.clarity ∧ r.clarity ≤ 100) ∧
    (0 ≤ r.score ∧ r.score ≤ 100) ∧
    (30 ≤ (pyStrip answer).data.length →
      (20 ≤ r.confidence ∧ r.confidence ≤ 98 ∧ 15 ≤ r.clarity ∧ r.clarity ≤ 98)) := by
  unfold perform_comprehensive_analysis at hok
  by_cases hshort : (pyStrip answer).data.length < 30
  · rw [if_pos hshort] at hok
    obtain rfl : (⟨5, 15, 20, 13,
        "Response too brief - please provide a detailed answer (at least 45 seconds of speech)."⟩ :
        AnalysisResult) = r := Except.ok.inj hok
    refine ⟨⟨by norm_num, by norm_num⟩, ⟨by norm_num, by norm_num⟩,
      ⟨by norm_num, by norm_num⟩, ⟨by norm_num, by norm_num⟩, fun h30 => absurd h30 (by omega)⟩
  · rw [if_neg hshort] at hok
    rcases hsim : similarity question (pyStrip answer) with e | sim <;> rw [hsim] at hok
    · exact absurd hok (by simp)
    · simp only [] at hok
      obtain rfl := Except.ok.inj hok
      obtain ⟨hrel0, hrel100⟩ := calculate_semantic_relevance_bounds sim
      obtain ⟨⟨hcl, hcl98⟩, ⟨hco, hco98⟩⟩ :=
        evaluate_clarity_and_confidence_bounds (pyStrip answer) config
      set rel := calculate_semantic_relevance sim with hreldef
      set cl := (evaluate_clarity_and_confidence (pyStrip answer) config).1 with hcldef
      set co := (evaluate_clarity_and_confidence (pyStrip answer) config).2 with hcodef
      have hrelQ : (0 : ℚ) ≤ (rel : ℚ) ∧ (rel : ℚ) ≤ 100 :=
        ⟨by exact_mod_cast hrel0, by exact_mod_cast hrel100⟩
      have hcoQ : (0 : ℚ) ≤ (co : ℚ) ∧ (co : ℚ) ≤ 100 :=
        ⟨by exact_mod_cast (by omega : (0 : ℤ) ≤ co), by exact_mod_cast (by omega : co ≤ 100)⟩
      have hclQ : (0 : ℚ) ≤ (cl : ℚ) ∧ (cl : ℚ) ≤ 100 :=
        ⟨by exact_mod_cast (by omega : (0 : ℤ) ≤ cl), by exact_mod_cast (by omega : cl ≤ 100)⟩
      have hW0 : 0 ≤ config.relevance_weight * (rel : ℚ) +
          config.confidence_weight * (co : ℚ) + config.clarity_weight * (cl : ℚ) :=
        add_nonneg (add_nonneg (mul_nonneg hw1 hrelQ.1) (mul_nonneg hw2 hcoQ.1))
          (mul_nonneg hw3 hclQ.1)
      have hW100 : config.relevance_weight * (rel : ℚ) +
          config.confidence_weight * (co : ℚ) + config.clarity_weight * (cl : ℚ) ≤ 100 := by
        have h1 : config.relevance_weight * (rel : ℚ) ≤ config.relevance_weight * 100 :=
          mul_le_mul_of_nonneg_left hrelQ.2 hw1
        have h2 : config.confidence_weight * (co : ℚ) ≤ config.confidence_weight * 100 :=
          mul_le_mul_of_nonneg_left hcoQ.2 hw2
        have h3 : config.clarity_weight * (cl : ℚ) ≤ config.clarity_weight * 100 :=
          mul_le_mul_of_nonneg_left hclQ.2 hw3
        nlinarith [hsum]
      obtain ⟨hs0, hs100⟩ := pyTrunc_bounds_of _ hW0 hW100
      dsimp only
      exact ⟨⟨hrel0, hrel100⟩, ⟨by omega, by omega⟩, ⟨by omega, by omega⟩, ⟨hs0, hs100⟩,
        fun _ => ⟨hco, hco98, hcl, hcl98⟩⟩

/-- Witness for the amended C3 at the empty answer (short path) under
the default configuration, with a failing embedding oracle. -/
theorem c3_metric_bounds_amended_witness :
    ((0 : ℚ) ≤ DEFAULT_CONFIG.relevance_weight ∧ (0 : ℚ) ≤ DEFAULT_CONFIG.confidence_weight ∧
        (0 : ℚ) ≤ DEFAULT_CONFIG.clarity_weight ∧
        DEFAULT_CONFIG.relevance_weight + DEFAULT_CONFIG.confidence_weight +
          DEFAULT_CONFIG.clarity_weight = 1) ∧
    ((0 ≤ (5 : ℤ) ∧ (5 : ℤ) ≤ 100) ∧ (0 ≤ (15 : ℤ) ∧ (15 : ℤ) ≤ 100) ∧
      (0 ≤ (20 : ℤ) ∧ (20 : ℤ) ≤ 100) ∧ (0 ≤ (13 : ℤ) ∧ (13 : ℤ) ≤ 100) ∧
      (30 ≤ (pyStrip "").data.length →
        (20 ≤ (15 : ℤ) ∧ (15 : ℤ) ≤ 98 ∧ 15 ≤ (20 : ℤ) ∧ (20 : ℤ) ≤ 98))) := by
  constructor
  · refine ⟨?_, ?_, ?_, ?_⟩ <;> norm_num [DEFAULT_CONFIG]
  · exact c3_metric_bounds_amended (fun _ _ => Except.error "down") true id "Q" ""
      DEFAULT_CONFIG
      ⟨5, 15, 20, 13,
        "Response too brief - please provide a detailed answer (at least 45 seconds of speech)."⟩
      (by norm_num [DEFAULT_CONFIG]) (by norm_num [DEFAULT_CONFIG])
      (by norm_num [DEFAULT_CONFIG]) (by norm_num [DEFAULT_CONFIG]) rfl

/-- The per-answer metric record consumed by the Session Statistics &
Insight Engine (the four metric entries of a response dictionary). -/
structure ResponseMetrics where
  relevance : ℤ
  confidence : ℤ
  clarity : ℤ
  score : ℤ
deriving DecidableEq

/-- The dictionary returned by `compute_overall_interview_statistics`. -/
structure InterviewStats where
  overall_average_score : ℚ
  highest_score : ℤ
  lowest_score : ℤ
  average_relevance : ℚ
  average_confidence : ℚ
  average_clarity : ℚ
  total_questions : ℕ
  strongest_area : String
  area_for_improvement : String
deriving DecidableEq

/-- Round to the nearest integer, halves to the even neighbour, as
Python's `round` does. -/
def roundHalfEven (q : ℚ) : ℤ :=
  if q - ⌊q⌋ = 1 / 2 then (if 2 ∣ ⌊q⌋ then ⌊q⌋ else ⌊q⌋ + 1) else round q

/-- Python `round(x, 1)`: round to one decimal place (exact-rational
model of Python's banker's rounding at one decimal). -/
def pyRound1 (q : ℚ) : ℚ := (roundHalfEven (q * 10) : ℚ) / 10

/-- Python `r.get(metric_key, 0)` on a response dictionary: look a
metric up by its string key, defaulting to 0 for unknown keys. -/
def metricOf (key : String) (r : ResponseMetrics) : ℤ :=
  if key = "relevance" then r.relevance
  else if key = "confidence" then r.confidence
  else if key = "clarity" then r.clarity
  else if key = "score" then r.score
  else 0

/-- Function `calculate_average_metric`: 0.0 on an empty list, otherwise
the mean of the keyed metric rounded to one decimal. -/
def calculate_average_metric (responses : List ResponseMetrics) (key : String) : ℚ :=
  if responses = [] then 0
  else pyRound1 (((responses.map (metricOf key)).sum : ℚ) / responses.length)

/-- Python `max(x :: xs, key)`: fold keeping the current element unless
a strictly greater key appears, so ties resolve to the earliest
element. -/
def pyMaxKeyNE (key : String → ℚ) (x : String) (xs : List String) : String :=
  xs.foldl (fun b y => if key y > key b then y else b) x

/-- Python `min(x :: xs, key)`: fold keeping the current element unless
a strictly smaller key appears, so ties resolve to the earliest
element. -/
def pyMinKeyNE (key : String → ℚ) (x : String) (xs : List String) : String :=
  xs.foldl (fun b y => if key y < key b then y else b) x

/-- Function `compute_overall_interview_statistics`: the empty list
yields the explicit error value (Python returns the one-entry dictionary
`{"error": "No responses available"}`, the function's error channel,
modelled as `Except.error`). -/
def compute_overall_interview_statistics :
    List ResponseMetrics → Except String InterviewStats
  | [] => Except.error "No responses available"
  | r :: rs =>
    let responses := r :: rs
    let scores := responses.map (fun t => t.score)
    Except.ok
      { overall_average_score := pyRound1 ((scores.sum : ℚ) / scores.length)
        highest_score := (rs.map (fun t => t.score)).foldl max r.score
        lowest_score := (rs.map (fun t => t.score)).foldl min r.score
        average_relevance := calculate_average_metric responses "relevance"
        average_confidence := calculate_average_metric responses "confidence"
        average_clarity := calculate_average_metric responses "clarity"
        total_questions := responses.length
        strongest_area := pyMaxKeyNE (fun k => calculate_average_metric responses k)
          "relevance" ["confidence", "clarity"]
        area_for_improvement := pyMinKeyNE (fun k => calculate_average_metric responses k)
          "relevance" ["confidence", "clarity"] }

/-- C5: invoked on an empty record list, the statistics engine fails
with the explicit error value rather than returning any statistics
object (in particular never a default or zero-filled one: the result is
`Except.error`, not `Except.ok`). -/
theorem c5_empty_session_error :
    compute_overall_interview_statistics [] = Except.error "No responses available" := rfl

/-- Modelled from the spec's words for §4.6 (comparison target for C8):
argmax over the three dimensions by session mean, ties resolving to the
first dimension in the iteration order relevance, confidence, clarity. -/
def specStrongestArea (avgR avgC avgCl : ℚ) : String :=
  if avgR ≥ avgC ∧ avgR ≥ avgCl then "relevance"
  else if avgC ≥ avgCl then "confidence"
  else "clarity"

/-- Modelled from the spec's words for §4.6 (comparison target for C8):
argmin over the three dimensions by session mean, ties resolving to the
first dimension in the iteration order relevance, confidence, clarity. -/
def specAreaForImprovement (avgR avgC avgCl : ℚ) : String :=
  if avgR ≤ avgC ∧ avgR ≤ avgCl then "relevance"
  else if avgC ≤ avgCl then "confidence"
  else "clarity"

/-- Python's first-maximum fold over the three dimensions computes the
spec's deterministic first-tie-break argmax. -/
theorem pyMaxKeyNE_spec (key : String → ℚ) :
    pyMaxKeyNE key "relevance" ["confidence", "clarity"] =
      specStrongestArea (key "relevance") (key "confidence") (key "clarity") := by
  unfold pyMaxKeyNE specStrongestArea
  simp only [List.foldl]
  rcases le_or_lt (key "confidence") (key "relevance") with hCR | hCR
  · rw [if_neg (not_lt.mpr hCR)]
    rcases le_or_lt (key "clarity") (key "relevance") with hClR | hClR
    · rw [if_neg (not_lt.mpr hClR), if_pos ⟨hCR, hClR⟩]
    · rw [if_pos hClR, if_neg (by push_neg; intro _; exact hClR),
        if_neg (not_le.mpr (lt_of_le_of_lt hCR hClR))]
  · rw [if_pos hCR]
    rcases le_or_lt (key "clarity") (key "confidence") with hClC | hClC
    · rw [if_neg (not_lt.mpr hClC),
        if_neg (by push_neg; intro h; exact absurd h (not_le.mpr hCR)), if_pos hClC]
    · rw [if_pos hClC, if_neg (by push_neg; intro h; exact absurd h (not_le.mpr hCR)),
        if_neg (not_le.mpr hClC)]

/-- Python's first-minimum fold over the three dimensions computes the
spec's deterministic first-tie-break argmin. -/
theorem pyMinKeyNE_spec (key : String → ℚ) :
    pyMinKeyNE key "relevance" ["confidence", "clarity"] =
      specAreaForImprovement (key "relevance") (key "confidence") (key "clarity") := by
  unfold pyMinKeyNE specAreaForImprovement
  simp only [List.foldl]
  rcases le_or_lt (key "relevance") (key "confidence") with hRC | hRC
  · rw [if_neg (not_lt.mpr hRC)]
    rcases le_or_lt (key "relevance") (key "clarity") with hRCl | hRCl
    · rw [if_neg (not_lt.mpr hRCl), if_pos ⟨hRC, hRCl⟩]
    · rw [if_pos hRCl, if_neg (by push_neg; intro _; exact hRCl),
        if_neg (not_le.mpr (lt_of_lt_of_le hRCl hRC))]
  · rw [if_pos hRC]
    rcases le_or_lt (key "confidence") (key "clarity") with hCCl | hCCl
    · rw [if_neg (not_lt.mpr hCCl),
        if_neg (by push_neg; intro h; exact absurd h (not_le.mpr hRC)), if_pos hCCl]
    · rw [if_pos hCCl, if_neg (by push_neg; intro h; exact absurd h (not_le.mpr hRC)),
        if_neg (not_le.mpr hCCl)]

/-- C8: for every non-empty record list, the session statistics'
strongest area is the argmax and the area for improvement the argmin of
the session averages over relevance, confidence, clarity, with ties
resolved deterministically to the first dimension in that iteration
order. -/
theorem c8_argmax_tiebreak (r : ResponseMetrics) (rs : List ResponseMetrics)
    (stats : InterviewStats)
    (hok : compute_overall_interview_statistics (r :: rs) = Except.ok stats) :
    stats.strongest_area =
      specStrongestArea (calculate_average_metric (r :: rs) "relevance")
        (calculate_average_metric (r :: rs) "confidence")
        (calculate_average_metric (r :: rs) "clarity") ∧
    stats.area_for_improvement =
      specAreaForImprovement (calculate_average_metric (r :: rs) "relevance")
        (calculate_average_metric (r :: rs) "confidence")
        (calculate_average_metric (r :: rs) "clarity") := by
  unfold compute_overall_interview_statistics at hok
  obtain rfl := Except.ok.inj hok
  dsimp only
  exact ⟨pyMaxKeyNE_spec _, pyMinKeyNE_spec _⟩

/-- Metric lookup at the key "relevance" projects that field. -/
theorem metricOf_relevance (r : ResponseMetrics) : metricOf "relevance" r = r.relevance := rfl

/-- Metric lookup at the key "confidence" projects that field. -/
theorem metricOf_confidence (r : ResponseMetrics) : metricOf "confidence" r = r.confidence := rfl

/-- Metric lookup at the key "clarity" projects that field. -/
theorem metricOf_clarity (r : ResponseMetrics) : metricOf "clarity" r = r.clarity := rfl

/-- Witness for C8 on the single-record session (80, 70, 90, 85): the
strongest area is clarity (average 90) and the area for improvement is
confidence (average 70). -/
theorem c8_argmax_tiebreak_witness :
    compute_overall_interview_statistics [⟨80, 70, 90, 85⟩] =
      Except.ok ⟨85, 85, 85, 80, 70, 90, 1, "clarity", "confidence"⟩ ∧
    (("clarity" : String) =
        specStrongestArea (calculate_average_metric [⟨80, 70, 90, 85⟩] "relevance")
          (calculate_average_metric [⟨80, 70, 90, 85⟩] "confidence")
          (calculate_average_metric [⟨80, 70, 90, 85⟩] "clarity") ∧
      ("confidence" : String) =
        specAreaForImprovement (calculate_average_metric [⟨80, 70, 90, 85⟩] "relevance")
          (calculate_average_metric [⟨80, 70, 90, 85⟩] "confidence")
          (calculate_average_metric [⟨80, 70, 90, 85⟩] "clarity")) := by
  have hok : compute_overall_interview_statistics [⟨80, 70, 90, 85⟩] =
      Except.ok ⟨85, 85, 85, 80, 70, 90, 1, "clarity", "confidence"⟩ := by
    unfold compute_overall_interview_statistics
    norm_num [pyRound1, roundHalfEven, round_eq, calculate_average_metric,
      metricOf_relevance, metricOf_confidence, metricOf_clarity, pyMaxKeyNE, pyMinKeyNE]
  exact ⟨hok, c8_argmax_tiebreak ⟨80, 70, 90, 85⟩ []
    ⟨85, 85, 85, 80, 70, 90, 1, "clarity", "confidence"⟩ hok⟩

/-- C9 (Scenario D): a session of four records with overall scores
95, 60, 88, 40 yields highest score 95, lowest score 40, and overall
average 354/5, i.e. 70.75 rounded to one decimal as 70.8. -/
theorem c9_scenario_d :
    compute_overall_interview_statistics
      [⟨0, 0, 0, 95⟩, ⟨0, 0, 0, 60⟩, ⟨0, 0, 0, 88⟩, ⟨0, 0, 0, 40⟩] =
    Except.ok ⟨354 / 5, 95, 40, 0, 0, 0, 4, "relevance", "relevance"⟩ ∧
    (354 / 5 : ℚ) = 70.8 := by
  constructor
  · unfold compute_overall_interview_statistics
    norm_num [pyRound1, roundHalfEven, round_eq, calculate_average_metric, metricOf,
      pyMaxKeyNE, pyMinKeyNE]
  · norm_num

/-- Python `", ".join(map(str, l))`. -/
def joinNats (l : List ℕ) : String := ", ".intercalate (l.map toString)

/-- The 1-based positions of the records satisfying a predicate
(`[i+1 for i, r in enumerate(responses) if p(r)]`). -/
def flaggedPositions (responses : List ResponseMetrics) (p : ResponseMetrics → Bool) :
    List ℕ :=
  (responses.enum.filter (fun ia => p ia.2)).map (fun ia => ia.1 + 1)

/-- Function `extract_key_strengths_and_weaknesses` (its `config`
parameter is unused in the source and omitted here): returns the
strengths and weaknesses lists, each replaced by its fixed fallback when
empty (Python `strengths or [...]`, `weaknesses or [...]`). -/
def extract_key_strengths_and_weaknesses (responses : List ResponseMetrics) :
    List String × List String :=
  let low_relevance := flaggedPositions responses (fun r => r.relevance < 70)
  let low_confidence := flaggedPositions responses (fun r => r.confidence < 60)
  let low_clarity := flaggedPositions responses (fun r => r.clarity < 70)
  let weaknesses :=
    (if low_relevance ≠ [] then
      ["Stay on topic more closely (Questions " ++ joinNats low_relevance ++ ")"] else []) ++
    (if low_confidence ≠ [] then
      ["Project more confidence through pacing and examples (Questions " ++
        joinNats low_confidence ++ ")"] else []) ++
    (if low_clarity ≠ [] then
      ["Reduce fillers and pauses for smoother delivery (Questions " ++
        joinNats low_clarity ++ ")"] else [])
  let high_scores := flaggedPositions responses (fun r => r.score ≥ 85)
  let strengths :=
    (if high_scores ≠ [] then
      ["Excellent structured responses (Questions " ++ joinNats high_scores ++ ")"] else []) ++
    (if responses.all (fun r => r.relevance ≥ 80) then
      ["Consistently high relevance across all answers"] else [])
  (if strengths = [] then ["Consistent effort shown"] else strengths,
   if weaknesses = [] then ["Continue practicing regularly"] else weaknesses)

/-- C10: on an empty record list the universally quantified relevance
check is vacuously true, so the extractor returns the blanket relevance
strength together with the fallback weakness, without failing. -/
theorem c10_empty_records_blanket_strength :
    extract_key_strengths_and_weaknesses [] =
      (["Consistently high relevance across all answers"],
       ["Continue practicing regularly"]) := rfl
